import Mathlib

/-!
Verification of the backend relay in `backend/app.py`.

The development shallowly embeds the three core components of the source —
the response normalizer (`_parse_response_text`), the model selector
(`_get_models_list` / `choose_model`), the generation invoker
(`generate_text_with_model`) — together with the two routes built on them
(`generate_route`, `debug_generate`).

Python values reachable by the normalizer are modelled by the inductive
`PyVal`.  An attribute of an object may either hold a value or raise when
accessed (a raising property); attribute access is therefore modelled in the
`Except PyExc` monad, which is what makes the `try/except` wrapper of the
normalizer meaningful.  `str(x)` is modelled by the total function `pyToStr`
(an abstract but total rendering; its exact text is irrelevant to the
properties proved below, only its totality and length matter).

The upstream `genai` client is modelled by `GenaiClient`: each generation
strategy is either absent (`none`, the `hasattr` probe fails) or a function
from model name and prompt to a call outcome (a response value or a raised
exception).  The invoker and the routes additionally return the list of
upstream calls actually performed; this trace component is pure
instrumentation used to state "strategy N is never invoked" properties and
does not alter any computed result.
-/

/-- A raised Python exception, as far as the source distinguishes them:
`TypeError` is caught specially by strategy 3, everything else is generic. -/
inductive PyExc where
  | typeError (msg : String)
  | other (msg : String)
deriving DecidableEq, Repr

/-- Python values reachable by `_parse_response_text`.  `vDict` carries both
the attribute table (a dict subclass may expose attributes) and the mapping
entries; `vObj` carries an attribute table and the result of `str` on it.
An attribute table entry maps a name to either a value or an exception
raised by the accessor. -/
inductive PyVal where
  | vNone : PyVal
  | vStr : String → PyVal
  | vList : List PyVal → PyVal
  | vDict : List (String × Except PyExc PyVal) → List (String × PyVal) → PyVal
  | vObj : List (String × Except PyExc PyVal) → String → PyVal

mutual

/-- Model of `str(x)`: a total rendering of a value as a string. -/
def pyToStr : PyVal → String
  | PyVal.vNone => "None"
  | PyVal.vStr s => s
  | PyVal.vList l => "[" ++ pyListStr l ++ "]"
  | PyVal.vDict _ entries => "\x7b" ++ pyEntriesStr entries ++ "\x7d"
  | PyVal.vObj _ r => r

/-- Renders list elements, comma separated. -/
def pyListStr : List PyVal → String
  | [] => ""
  | [x] => pyToStr x
  | x :: xs => pyToStr x ++ ", " ++ pyListStr xs

/-- Renders dict entries, comma separated. -/
def pyEntriesStr : List (String × PyVal) → String
  | [] => ""
  | [(k, v)] => k ++ ": " ++ pyToStr v
  | (k, v) :: xs => k ++ ": " ++ pyToStr v ++ ", " ++ pyEntriesStr xs

end

/-- The attribute table of a value.  Plain strings, lists and `None` expose
none of the attributes the normalizer probes for. -/
def attrsOf : PyVal → List (String × Except PyExc PyVal)
  | PyVal.vDict attrs _ => attrs
  | PyVal.vObj attrs _ => attrs
  | _ => []

/-- Raw attribute lookup: absent, present, or raising. -/
def getattrFind (v : PyVal) (n : String) : Option (Except PyExc PyVal) :=
  List.lookup n (attrsOf v)

/-- Model of `hasattr(v, n)`: `False` when the attribute is absent, `True`
when present; a raising accessor propagates its exception (Python 3
`hasattr` only swallows `AttributeError`). -/
def hasattrE (v : PyVal) (n : String) : Except PyExc Bool :=
  match getattrFind v n with
  | none => Except.ok false
  | some (Except.ok _) => Except.ok true
  | some (Except.error e) => Except.error e

/-- Model of `getattr(v, n)` for an attribute already known to exist. -/
def getattrE (v : PyVal) (n : String) : Except PyExc PyVal :=
  match getattrFind v n with
  | none => Except.error (PyExc.other "AttributeError")
  | some r => r

/-- The fixed key priority of extraction rules 3 and 6. -/
def strKeyList : List String := ["content", "text", "output"]

/-- The loop `for k in ("content","text","output"): if k in first and
isinstance(first[k], str): return first[k]`. -/
def firstStrKey (d : List (String × PyVal)) : Option String :=
  strKeyList.findSome? (fun k =>
    match List.lookup k d with
    | some (PyVal.vStr s) => some s
    | _ => none)

/-- Rule 1 (`app.py` 66-67): a direct string-typed `text` attribute. -/
def rule1 (resp : PyVal) : Except PyExc (Option PyVal) :=
  match hasattrE resp "text" with
  | Except.error e => Except.error e
  | Except.ok false => Except.ok none
  | Except.ok true =>
    match getattrE resp "text" with
    | Except.error e => Except.error e
    | Except.ok (PyVal.vStr s) => Except.ok (some (PyVal.vStr s))
    | Except.ok _ => Except.ok none

/-- Rule 2 (`app.py` 69-70): a string-typed `"output"` mapping entry. -/
def dictOutputRule (entries : List (String × PyVal)) : Option PyVal :=
  match List.lookup "output" entries with
  | some (PyVal.vStr s) => some (PyVal.vStr s)
  | _ => none

/-- Rule 3 (`app.py` 71-76): a non-empty `"outputs"` list whose first
element is a mapping holding one of the priority keys as a string. -/
def dictOutputsRule (entries : List (String × PyVal)) : Option PyVal :=
  match List.lookup "outputs" entries with
  | some (PyVal.vList (first :: _)) =>
    match first with
    | PyVal.vDict _ fd => (firstStrKey fd).map PyVal.vStr
    | _ => none
  | _ => none

/-- Rule 4 (`app.py` 77-80): a non-empty `"candidates"` list whose first
element is a mapping with an `"output"` entry; note the source returns that
entry without checking that it is a string. -/
def dictCandidatesRule (entries : List (String × PyVal)) : Option PyVal :=
  match List.lookup "candidates" entries with
  | some (PyVal.vList (cand :: _)) =>
    match cand with
    | PyVal.vDict _ cd => List.lookup "output" cd
    | _ => none
  | _ => none

/-- The `isinstance(resp, dict)` block of the normalizer: rules 2, 3, 4
tried in source order, falling through on no match. -/
def ruleDict (resp : PyVal) : Option PyVal :=
  match resp with
  | PyVal.vDict _ entries =>
    match dictOutputRule entries with
    | some v => some v
    | none =>
      match dictOutputsRule entries with
      | some v => some v
      | none => dictCandidatesRule entries
  | _ => none

/-- Rule 5 (`app.py` 81-88): a `candidates` attribute holding a non-empty
list; the first element answers through its `text` attribute (returned
unchecked) or through an `"output"` mapping entry (returned unchecked). -/
def ruleCandAttr (resp : PyVal) : Except PyExc (Option PyVal) :=
  match hasattrE resp "candidates" with
  | Except.error e => Except.error e
  | Except.ok false => Except.ok none
  | Except.ok true =>
    match getattrE resp "candidates" with
    | Except.error e => Except.error e
    | Except.ok (PyVal.vList (first :: _)) =>
      (match hasattrE first "text" with
       | Except.error e => Except.error e
       | Except.ok true =>
         (match getattrE first "text" with
          | Except.error e => Except.error e
          | Except.ok t => Except.ok (some t))
       | Except.ok false =>
         match first with
         | PyVal.vDict _ fd =>
           (match List.lookup "output" fd with
            | some v => Except.ok (some v)
            | none => Except.ok none)
         | _ => Except.ok none)
    | Except.ok _ => Except.ok none

/-- Rule 6 (`app.py` 89-98): an `outputs` attribute holding a non-empty
list; a plain-string first element is returned, a mapping first element is
probed for the priority keys. -/
def ruleOutputsAttr (resp : PyVal) : Except PyExc (Option PyVal) :=
  match hasattrE resp "outputs" with
  | Except.error e => Except.error e
  | Except.ok false => Except.ok none
  | Except.ok true =>
    match getattrE resp "outputs" with
    | Except.error e => Except.error e
    | Except.ok (PyVal.vList (first :: _)) =>
      (match first with
       | PyVal.vStr s => Except.ok (some (PyVal.vStr s))
       | PyVal.vDict _ fd => Except.ok ((firstStrKey fd).map PyVal.vStr)
       | _ => Except.ok none)
    | Except.ok _ => Except.ok none

/-- The body of the `try` block of `_parse_response_text` (`app.py` 65-99):
the six extraction rules in priority order, ending in `str(resp)`. -/
def parseBody (resp : PyVal) : Except PyExc PyVal :=
  match rule1 resp with
  | Except.error e => Except.error e
  | Except.ok (some v) => Except.ok v
  | Except.ok none =>
    match ruleDict resp with
    | some v => Except.ok v
    | none =>
      match ruleCandAttr resp with
      | Except.error e => Except.error e
      | Except.ok (some v) => Except.ok v
      | Except.ok none =>
        match ruleOutputsAttr resp with
        | Except.error e => Except.error e
        | Except.ok (some v) => Except.ok v
        | Except.ok none => Except.ok (PyVal.vStr (pyToStr resp))

/-- Source function `_parse_response_text` (`app.py` 64-101): the rule body wrapped in
`try/except` — any exception is swallowed and `str(resp)` returned. -/
def parse_response_text (resp : PyVal) : Except PyExc PyVal :=
  match parseBody resp with
  | Except.ok v => Except.ok v
  | Except.error _ => Except.ok (PyVal.vStr (pyToStr resp))

/-- Whether a value is a Python string. -/
def PyVal.isString : PyVal → Bool
  | PyVal.vStr _ => true
  | _ => false

/-! ## Model selector (`_get_models_list`, `choose_model`) -/

/-- One upstream model descriptor: an optional `name` attribute, an optional
`capabilities` attribute (absent models `getattr` returning the `None`
default), and the result of `str` on the descriptor. -/
structure ModelDesc where
  name : Option String
  capabilities : Option (List String)
  strRepr : String
deriving DecidableEq, Repr

/-- The idiom `getattr(m, "name", str(m))` used throughout the source. -/
def modelName (m : ModelDesc) : String :=
  m.name.getD m.strRepr

/-- ASCII lowering of one character. -/
def pyLowerChar (c : Char) : Char :=
  if c.toNat ≥ 65 ∧ c.toNat ≤ 90 then Char.ofNat (c.toNat + 32) else c

/-- Model of `str.lower()` on the names the selector compares (character
by character lowering). -/
def pyLower (s : String) : String :=
  String.mk (s.data.map pyLowerChar)

/-- Behaviour of the upstream `genai.list_models()` call: it either raises
or returns a list of descriptors. -/
inductive ListResult where
  | raises (msg : String)
  | ok (models : List ModelDesc)

/-- Failures of model selection, per the error taxonomy of the design:
`upstreamListError` when the listing call itself raises,
`noModelsAvailable` when it returns an empty collection. -/
inductive ChooseError where
  | upstreamListError (msg : String)
  | noModelsAvailable
deriving DecidableEq, Repr

/-- Source function `_get_models_list` (`app.py` 31-37): wraps the listing call, re-raising
any failure as `RuntimeError("Failed to list models: ...")`. -/
def _get_models_list (lr : ListResult) : Except ChooseError (List ModelDesc) :=
  match lr with
  | ListResult.raises msg =>
    Except.error (ChooseError.upstreamListError ("Failed to list models: " ++ msg))
  | ListResult.ok ms => Except.ok ms

/-- The built-in default preference list (`app.py` 41-48). -/
def defaultPreferred : List String :=
  ["gemini-pro", "gemini-1.5-pro", "gemini-ultra-1.0", "gemini-1.0",
   "text-bison@001", "text-bison"]

/-- Lookup in the comprehension-built dict
`{getattr(m,"name",str(m)).lower(): m for m in models}`: for a duplicated
lowercased name the later descriptor overwrites the earlier one, hence the
last matching element of the list. -/
def availLookup (models : List ModelDesc) (key : String) : Option ModelDesc :=
  (models.filter (fun m => pyLower (modelName m) == key)).getLast?

/-- The preference loop of `choose_model` (`app.py` 53-55): the first
preferred entry whose lowercasing is a key of the availability dict. -/
def prefFind (preferred_list : List String) (models : List ModelDesc) : Option ModelDesc :=
  preferred_list.findSome? (fun cand => availLookup models (pyLower cand))

/-- The generation-related capability tags (`app.py` 60). -/
def genCapKeywords : List String :=
  ["generate", "generations", "text", "chat", "responses"]

/-- The capability test of the second selection pass (`app.py` 56-61):
a truthy `capabilities` attribute whose lowercased entries meet the
keyword set. -/
def hasGenCap (m : ModelDesc) : Bool :=
  match m.capabilities with
  | none => false
  | some caps =>
    !caps.isEmpty && genCapKeywords.any (fun k => (caps.map pyLower).contains k)

/-- Source function `choose_model` (`app.py` 39-62): list models, fail on an empty list,
then preferred-name pass, capability pass, first-descriptor fallback. -/
def choose_model (preferred : Option (List String)) (lr : ListResult) :
    Except ChooseError String :=
  let preferred_list := preferred.getD defaultPreferred
  match _get_models_list lr with
  | Except.error e => Except.error e
  | Except.ok models =>
    match models with
    | [] => Except.error ChooseError.noModelsAvailable
    | m0 :: _ =>
      match prefFind preferred_list models with
      | some m => Except.ok (modelName m)
      | none =>
        match models.find? hasGenCap with
        | some m => Except.ok (modelName m)
        | none => Except.ok (modelName m0)

/-- The message carried by a selection failure (`str(e)` at the route). -/
def chooseErrorMsg : ChooseError → String
  | ChooseError.upstreamListError msg => msg
  | ChooseError.noModelsAvailable => "No models returned by the API (empty list)."

/-! ## Generation invoker (`generate_text_with_model`) -/

/-- Outcome of one upstream generation call: a response value or a raised
exception. -/
abbrev CallResult := Except PyExc PyVal

/-- The upstream `genai` client as the invoker sees it: each strategy is
absent (its `hasattr` probe fails) or a function of model name and prompt.
Strategy 3 carries the pair of calling conventions
(`input`-named parameter first, `prompt`-named parameter second). -/
structure GenaiClient where
  generate_text : Option (String → String → CallResult)
  generate : Option (String → String → CallResult)
  responses_create : Option ((String → String → CallResult) × (String → String → CallResult))
  create : Option (String → String → CallResult)

/-- Result of one strategy block: a returned value, or fall through to the
next strategy carrying the current `last_exc`. -/
inductive StepOut where
  | done (v : PyVal)
  | next (last : Option PyExc)

/-- One simple strategy block (strategies 1, 2 and 4): skipped when absent,
otherwise invoked with any raise caught into `last_exc`; a successful
response is normalized inside the same `try`.  The second component records
the upstream call if one was performed. -/
def tryCall (fOpt : Option (String → String → CallResult)) (name : String)
    (m p : String) (last : Option PyExc) : StepOut × List String :=
  match fOpt with
  | none => (StepOut.next last, [])
  | some f =>
    match f m p with
    | Except.error e => (StepOut.next (some e), [name])
    | Except.ok resp =>
      match parse_response_text resp with
      | Except.ok v => (StepOut.done v, [name])
      | Except.error e => (StepOut.next (some e), [name])

/-- Strategy 3 (`app.py` 121-132): the `input`-named call first; on a
`TypeError` the same call is retried with the `prompt`-named parameter;
any other outcome of either call escapes to the enclosing handler. -/
def tryResponses
    (rOpt : Option ((String → String → CallResult) × (String → String → CallResult)))
    (m p : String) (last : Option PyExc) : StepOut × List String :=
  match rOpt with
  | none => (StepOut.next last, [])
  | some (fi, fp) =>
    match fi m p with
    | Except.error (PyExc.typeError _) =>
      (match fp m p with
       | Except.error e =>
         (StepOut.next (some e),
          ["genai.responses.create(input)", "genai.responses.create(prompt)"])
       | Except.ok resp =>
         match parse_response_text resp with
         | Except.ok v =>
           (StepOut.done v,
            ["genai.responses.create(input)", "genai.responses.create(prompt)"])
         | Except.error e =>
           (StepOut.next (some e),
            ["genai.responses.create(input)", "genai.responses.create(prompt)"]))
    | Except.error e => (StepOut.next (some e), ["genai.responses.create(input)"])
    | Except.ok resp =>
      match parse_response_text resp with
      | Except.ok v => (StepOut.done v, ["genai.responses.create(input)"])
      | Except.error e => (StepOut.next (some e), ["genai.responses.create(input)"])

/-- Failure of the whole invoker: `RuntimeError("All generation attempts
failed. Last error: ...")` carrying the last caught exception, if any. -/
inductive GenFailure where
  | allStrategiesFailed (last : Option PyExc)
deriving DecidableEq, Repr

/-- Source function `generate_text_with_model` (`app.py` 103-140): the four strategies in
their fixed order, first success wins, otherwise `AllStrategiesFailed`
carrying the most recent exception.  The list component is the trace of
upstream calls actually performed (instrumentation only). -/
def generate_text_with_model (c : GenaiClient) (model_name prompt : String) :
    Except GenFailure PyVal × List String :=
  match tryCall c.generate_text "genai.generate_text" model_name prompt none with
  | (StepOut.done v, t1) => (Except.ok v, t1)
  | (StepOut.next l1, t1) =>
    match tryCall c.generate "genai.generate" model_name prompt l1 with
    | (StepOut.done v, t2) => (Except.ok v, t1 ++ t2)
    | (StepOut.next l2, t2) =>
      match tryResponses c.responses_create model_name prompt l2 with
      | (StepOut.done v, t3) => (Except.ok v, t1 ++ t2 ++ t3)
      | (StepOut.next l3, t3) =>
        match tryCall c.create "genai.create" model_name prompt l3 with
        | (StepOut.done v, t4) => (Except.ok v, t1 ++ t2 ++ t3 ++ t4)
        | (StepOut.next l4, t4) =>
          (Except.error (GenFailure.allStrategiesFailed l4), t1 ++ t2 ++ t3 ++ t4)

/-- The message of the final `RuntimeError` (`app.py` 140). -/
def genFailureMsg : GenFailure → String
  | GenFailure.allStrategiesFailed last =>
    "All generation attempts failed. Last error: " ++
      (match last with
       | some (PyExc.typeError m) => m
       | some (PyExc.other m) => m
       | none => "Unknown error")

/-! ## The `/api/generate` route -/

/-- Model of `str.strip()`: leading and trailing whitespace removed. -/
def pyStrip (s : String) : String :=
  String.mk (((s.data.dropWhile Char.isWhitespace).reverse.dropWhile Char.isWhitespace).reverse)

/-- The JSON body of a `/api/generate` response, with `model_used`,
`output` and `error` optional as in the source. -/
structure GenerationOutcome where
  ok : Bool
  model_used : Option String
  output : Option PyVal
  error : Option String

/-- Result of one `/api/generate` request: the body, the HTTP status, and
two instrumentation fields — whether `choose_model` ran, and the trace of
upstream generation calls performed. -/
structure RouteResult where
  outcome : GenerationOutcome
  status : Nat
  chooseRan : Bool
  genCalls : List String

/-- Source function `generate_route` (`app.py` 158-177).  The request body is modelled by
its optional string `prompt` field (the documented body shape is
`\x7b prompt: string \x7d`); `payload.get("prompt", "")` is the
`Option.getD`. -/
def generate_route (promptField : Option String) (lr : ListResult) (c : GenaiClient) :
    RouteResult :=
  let prompt := pyStrip (promptField.getD "")
  if prompt = "" then
    { outcome := { ok := false, model_used := none, output := none,
                   error := some "Missing prompt in JSON body." },
      status := 400, chooseRan := false, genCalls := [] }
  else
    match choose_model none lr with
    | Except.error e =>
      { outcome := { ok := false, model_used := none, output := none,
                     error := some ("Model selection failed: " ++ chooseErrorMsg e) },
        status := 500, chooseRan := true, genCalls := [] }
    | Except.ok model_name =>
      match generate_text_with_model c model_name prompt with
      | (Except.ok out, tr) =>
        { outcome := { ok := true, model_used := some model_name,
                       output := some out, error := none },
          status := 200, chooseRan := true, genCalls := tr }
      | (Except.error e, tr) =>
        { outcome := { ok := false, model_used := none, output := none,
                       error := some (genFailureMsg e) },
          status := 500, chooseRan := true, genCalls := tr }

/-! ## The `/api/debug-generate` route -/

/-- One attempt record of the debug endpoint (`try_call`, `app.py`
190-195). -/
structure AttemptRecord where
  method : String
  ok : Bool
  output_preview : Option String
  error : Option String
deriving DecidableEq, Repr

/-- Result of one `/api/debug-generate` request: a selection failure
(status 500, stage `choose_model`) or the full diagnostic body. -/
inductive DebugResult where
  | chooseFailed (errorMsg : String)
  | success (model_used : String) (attempts : List AttemptRecord)

/-- The attempts carried by a debug result (empty on selection failure). -/
def DebugResult.attemptsOf : DebugResult → List AttemptRecord
  | DebugResult.chooseFailed _ => []
  | DebugResult.success _ atts => atts

/-- A placeholder record, used only to state properties of list heads. -/
def defaultAttempt : AttemptRecord :=
  { method := "", ok := false, output_preview := none, error := none }

/-- The rendering `repr(e)` of a caught exception in an attempt record. -/
def pyExcRepr : PyExc → String
  | PyExc.typeError m => "TypeError(" ++ m ++ ")"
  | PyExc.other m => "Exception(" ++ m ++ ")"

/-- Source function `try_call` (`app.py` 190-195): a success is recorded with an output
preview — sliced to 500 characters only when the output is a string,
otherwise `str(out)` unsliced — and a failure with `repr` of the error. -/
def try_call (name : String) (r : Except PyExc PyVal) : AttemptRecord :=
  match r with
  | Except.ok out =>
    { method := name, ok := true,
      output_preview := some (match out with
        | PyVal.vStr s => s.take 500
        | _ => pyToStr out),
      error := none }
  | Except.error e =>
    { method := name, ok := false, output_preview := none,
      error := some (pyExcRepr e) }

/-- The thunk of debug attempts 1, 2 and 4 (`app.py` 198-200, 203-205,
219): raise `Exception("attribute missing")` when the strategy is absent,
otherwise call it and normalize the response. -/
def debugFnSimple (fOpt : Option (String → String → CallResult)) (m p : String) :
    Except PyExc PyVal :=
  match fOpt with
  | none => Except.error (PyExc.other "attribute missing")
  | some f =>
    match f m p with
    | Except.error e => Except.error e
    | Except.ok resp => parse_response_text resp

/-- The thunk of debug attempt 3, `try_responses` (`app.py` 208-215). -/
def debugFnResponses
    (rOpt : Option ((String → String → CallResult) × (String → String → CallResult)))
    (m p : String) : Except PyExc PyVal :=
  match rOpt with
  | none => Except.error (PyExc.other "responses.create missing")
  | some (fi, fp) =>
    match fi m p with
    | Except.error (PyExc.typeError _) =>
      (match fp m p with
       | Except.error e => Except.error e
       | Except.ok resp => parse_response_text resp)
    | Except.error e => Except.error e
    | Except.ok resp => parse_response_text resp

/-- Source function `debug_generate` (`app.py` 180-221): strip the prompt, default it to
"Hello debug", select a model (failures reported with stage
`choose_model`), then run all four strategies unconditionally, each
through `try_call`. -/
def debug_generate (promptField : Option String) (lr : ListResult) (c : GenaiClient) :
    DebugResult :=
  let stripped := pyStrip (promptField.getD "")
  let prompt := if stripped = "" then "Hello debug" else stripped
  match choose_model none lr with
  | Except.error e => DebugResult.chooseFailed (chooseErrorMsg e)
  | Except.ok model_name =>
    DebugResult.success model_name
      [ try_call "genai.generate_text" (debugFnSimple c.generate_text model_name prompt)
      , try_call "genai.generate" (debugFnSimple c.generate model_name prompt)
      , try_call "genai.responses.create" (debugFnResponses c.responses_create model_name prompt)
      , try_call "genai.create" (debugFnSimple c.create model_name prompt) ]

/-! ## Helper lemmas and claim theorems -/

/-- C1 (amended): the Response Normalizer never raises for any input —
including `None`, empty mappings and empty lists — and always returns a
value, degrading to the string conversion of the raw value when no
extraction rule applies. -/
theorem parse_response_text_never_raises :
    (∀ v : PyVal, ∃ r, parse_response_text v = Except.ok r) ∧
    parse_response_text PyVal.vNone = Except.ok (PyVal.vStr (pyToStr PyVal.vNone)) ∧
    parse_response_text (PyVal.vDict [] []) =
      Except.ok (PyVal.vStr (pyToStr (PyVal.vDict [] []))) ∧
    parse_response_text (PyVal.vList []) =
      Except.ok (PyVal.vStr (pyToStr (PyVal.vList []))) := by
  refine ⟨fun v => ?_, rfl, rfl, rfl⟩
  unfold parse_response_text
  cases parseBody v with
  | ok w => exact ⟨w, rfl⟩
  | error e => exact ⟨PyVal.vStr (pyToStr v), rfl⟩

/-- A response that is a mapping whose `"candidates"` list starts with a
mapping holding a non-string `"output"` value. -/
def cexRespC1 : PyVal :=
  PyVal.vDict [] [("candidates", PyVal.vList [PyVal.vDict [] [("output", PyVal.vNone)]])]

/-- C1 counterexample: on `cexRespC1` the normalizer returns the raw
`None` value of the `"output"` entry, which is not a string — refuting
"always returns a string". -/
theorem parse_response_text_nonstring_result :
    parse_response_text cexRespC1 = Except.ok PyVal.vNone ∧
    PyVal.vNone.isString = false :=
  ⟨rfl, rfl⟩

/-- C9: a response exposing a string-typed `text` attribute and also a
conflicting string-valued `"output"` mapping entry is normalized to the
direct text attribute — rule 1 takes precedence over rule 2. -/
theorem parse_text_attr_precedes_output_entry :
    ∀ (attrs : List (String × Except PyExc PyVal)) (entries : List (String × PyVal))
      (t s : String),
      List.lookup "text" attrs = some (Except.ok (PyVal.vStr t)) →
      List.lookup "output" entries = some (PyVal.vStr s) →
      parse_response_text (PyVal.vDict attrs entries) = Except.ok (PyVal.vStr t) := by
  intro attrs entries t s h1 h2
  unfold parse_response_text parseBody rule1 hasattrE getattrE getattrFind attrsOf
  simp [h1]

/-- C9 witness: a concrete dict-with-text-attribute value on which rule 1
wins over rule 2. -/
theorem parse_text_attr_precedes_output_entry_witness :
    parse_response_text
      (PyVal.vDict [("text", Except.ok (PyVal.vStr "direct"))]
        [("output", PyVal.vStr "conflicting")]) = Except.ok (PyVal.vStr "direct") :=
  parse_text_attr_precedes_output_entry _ _ "direct" "conflicting" rfl rfl

/-- A hit in the availability dict forces the upstream list to be
non-empty. -/
theorem availLookup_some_ne_nil {models : List ModelDesc} {k : String} {m : ModelDesc}
    (h : availLookup models k = some m) : models ≠ [] := by
  intro hnil
  subst hnil
  simp [availLookup] at h

/-- Function `List.findSome?` skips a prefix on which the probe always misses. -/
theorem findSome_eq_of_prefix_none {α β : Type} (f : α → Option β)
    (pre rest : List α) (h : ∀ a ∈ pre, f a = none) :
    (pre ++ rest).findSome? f = rest.findSome? f := by
  induction pre with
  | nil => simp
  | cons a l ih =>
    rw [List.cons_append, List.findSome?_cons, h a (by simp)]
    exact ih (fun x hx => h x (by simp [hx]))

/-- C4: when some entry of the preferred list has a case-insensitive exact
match among the upstream descriptor names, `choose_model` returns the
original upstream casing of the descriptor matched by the earliest such
entry. -/
theorem choose_model_preferred_case_insensitive :
    ∀ (pre post : List String) (cand : String) (models : List ModelDesc) (m : ModelDesc),
      (∀ c ∈ pre, availLookup models (pyLower c) = none) →
      availLookup models (pyLower cand) = some m →
      choose_model (some (pre ++ cand :: post)) (ListResult.ok models) =
        Except.ok (modelName m) := by
  intro pre post cand models m hpre hc
  have hpf : prefFind (pre ++ cand :: post) models = some m := by
    unfold prefFind
    rw [findSome_eq_of_prefix_none _ pre _ (fun c hcp => hpre c hcp),
        List.findSome?_cons, hc]
  obtain ⟨m0, rest, rfl⟩ := List.exists_cons_of_ne_nil (availLookup_some_ne_nil hc)
  simp [choose_model, _get_models_list, hpf]

/-- C4 witness: preferred list `["model-a", "model-b"]` against an upstream
descriptor named `"Model-B"`: the case-insensitive second preference wins
and the upstream casing is returned. -/
theorem choose_model_preferred_case_insensitive_witness :
    choose_model (some ["model-a", "model-b"])
      (ListResult.ok [{ name := some "Model-B", capabilities := none,
                        strRepr := "Model-B" }]) = Except.ok "Model-B" :=
  choose_model_preferred_case_insensitive ["model-a"] [] "model-b"
    [{ name := some "Model-B", capabilities := none, strRepr := "Model-B" }]
    { name := some "Model-B", capabilities := none, strRepr := "Model-B" }
    (by intro c hc; simp at hc; subst hc; rfl) rfl

/-- C5: `choose_model` fails with the upstream-list error when the listing
call raises, fails with the no-models error when the listing returns an
empty collection, and never fails once the upstream list is non-empty. -/
theorem choose_model_failure_modes :
    (∀ (pref : Option (List String)) (msg : String),
       choose_model pref (ListResult.raises msg) =
         Except.error (ChooseError.upstreamListError ("Failed to list models: " ++ msg))) ∧
    (∀ pref : Option (List String),
       choose_model pref (ListResult.ok []) =
         Except.error ChooseError.noModelsAvailable) ∧
    (∀ (pref : Option (List String)) (models : List ModelDesc),
       models ≠ [] → ∃ nm, choose_model pref (ListResult.ok models) = Except.ok nm) := by
  refine ⟨fun pref msg => rfl, fun pref => rfl, fun pref models hne => ?_⟩
  obtain ⟨m0, rest, rfl⟩ := List.exists_cons_of_ne_nil hne
  cases hpf : prefFind (pref.getD defaultPreferred) (m0 :: rest) with
  | some m => exact ⟨modelName m, by simp [choose_model, _get_models_list, hpf]⟩
  | none =>
    cases hfc : (m0 :: rest).find? hasGenCap with
    | some m => exact ⟨modelName m, by simp [choose_model, _get_models_list, hpf, hfc]⟩
    | none => exact ⟨modelName m0, by simp [choose_model, _get_models_list, hpf, hfc]⟩

/-- C5 witness: a singleton upstream list is non-empty and selection on it
succeeds. -/
theorem choose_model_failure_modes_witness :
    ([({ name := some "m", capabilities := none, strRepr := "m" } : ModelDesc)] ≠ []) ∧
    ∃ nm, choose_model none
      (ListResult.ok [{ name := some "m", capabilities := none, strRepr := "m" }]) =
        Except.ok nm :=
  ⟨by simp, choose_model_failure_modes.2.2 none
      [{ name := some "m", capabilities := none, strRepr := "m" }] (by simp)⟩

/-- C2: when strategy 1 exists but raises and strategy 2 exists and
succeeds, the invoker returns the normalized output of strategy 2 and the
call trace shows that strategies 3 and 4 were never invoked. -/
theorem generate_short_circuit_first_success :
    ∀ (c : GenaiClient) (f g : String → String → CallResult) (m p : String)
      (e : PyExc) (resp v : PyVal),
      c.generate_text = some f → f m p = Except.error e →
      c.generate = some g → g m p = Except.ok resp →
      parse_response_text resp = Except.ok v →
      generate_text_with_model c m p =
        (Except.ok v, ["genai.generate_text", "genai.generate"]) := by
  intro c f g m p e resp v h1 h2 h3 h4 h5
  unfold generate_text_with_model
  rw [h1, h3]
  simp [tryCall, h2, h4, h5]

/-- A client whose first strategy raises and whose second succeeds with a
plain-string response. -/
def clientC2 : GenaiClient :=
  { generate_text := some (fun _ _ => Except.error (PyExc.other "boom")),
    generate := some (fun _ _ => Except.ok (PyVal.vStr "hello")),
    responses_create := none, create := none }

/-- C2 witness: on `clientC2` the invoker returns the normalized
output of strategy 2 and only the first two strategies appear in the trace. -/
theorem generate_short_circuit_first_success_witness :
    generate_text_with_model clientC2 "m" "p" =
      (Except.ok (PyVal.vStr "hello"), ["genai.generate_text", "genai.generate"]) :=
  generate_short_circuit_first_success clientC2
    (fun _ _ => Except.error (PyExc.other "boom"))
    (fun _ _ => Except.ok (PyVal.vStr "hello")) "m" "p"
    (PyExc.other "boom") (PyVal.vStr "hello") (PyVal.vStr "hello")
    rfl rfl rfl rfl rfl

/-- C6: when all four strategies are present and each raises, the invoker
fails with the all-strategies-failed error carrying exactly the error of
the last strategy (the most recent one); when no strategy exists, it fails
carrying no underlying error. -/
theorem generate_all_fail_carries_last_error :
    (∀ (f1 f2 fi fp f4 : String → String → CallResult) (m p : String)
       (e1 e2 e4 : PyExc) (s3 : String),
       f1 m p = Except.error e1 → f2 m p = Except.error e2 →
       fi m p = Except.error (PyExc.other s3) → f4 m p = Except.error e4 →
       (generate_text_with_model
          { generate_text := some f1, generate := some f2,
            responses_create := some (fi, fp), create := some f4 } m p).1 =
         Except.error (GenFailure.allStrategiesFailed (some e4))) ∧
    (∀ m p : String,
       (generate_text_with_model
          { generate_text := none, generate := none,
            responses_create := none, create := none } m p).1 =
         Except.error (GenFailure.allStrategiesFailed none)) := by
  constructor
  · intro f1 f2 fi fp f4 m p e1 e2 e4 s3 h1 h2 h3 h4
    simp [generate_text_with_model, tryCall, tryResponses, h1, h2, h3, h4]
  · intro m p
    rfl

/-- C6 witness: four concrete raising strategies; only the fourth error is
surfaced. -/
theorem generate_all_fail_carries_last_error_witness :
    (generate_text_with_model
      { generate_text := some (fun _ _ => Except.error (PyExc.other "e1")),
        generate := some (fun _ _ => Except.error (PyExc.other "e2")),
        responses_create := some
          (fun _ _ => Except.error (PyExc.other "e3"),
           fun _ _ => Except.error (PyExc.other "never")),
        create := some (fun _ _ => Except.error (PyExc.other "e4")) } "m" "p").1 =
      Except.error (GenFailure.allStrategiesFailed (some (PyExc.other "e4"))) :=
  generate_all_fail_carries_last_error.1
    (fun _ _ => Except.error (PyExc.other "e1"))
    (fun _ _ => Except.error (PyExc.other "e2"))
    (fun _ _ => Except.error (PyExc.other "e3"))
    (fun _ _ => Except.error (PyExc.other "never"))
    (fun _ _ => Except.error (PyExc.other "e4")) "m" "p"
    (PyExc.other "e1") (PyExc.other "e2") (PyExc.other "e4") "e3"
    rfl rfl rfl rfl

/-- C7: within strategy 3 the `input`-named call is attempted first, and
the `prompt`-named retry happens exactly when that first call raises a
`TypeError`: a success uses only the `input` call, a `TypeError` triggers
the retry, and any other exception does not. -/
theorem responses_create_retry_iff_typeerror :
    ∀ (fi fp : String → String → CallResult) (m p : String),
      (∀ resp v, fi m p = Except.ok resp → parse_response_text resp = Except.ok v →
        generate_text_with_model
          { generate_text := none, generate := none,
            responses_create := some (fi, fp), create := none } m p =
          (Except.ok v, ["genai.responses.create(input)"])) ∧
      (∀ s resp v, fi m p = Except.error (PyExc.typeError s) →
        fp m p = Except.ok resp → parse_response_text resp = Except.ok v →
        generate_text_with_model
          { generate_text := none, generate := none,
            responses_create := some (fi, fp), create := none } m p =
          (Except.ok v,
           ["genai.responses.create(input)", "genai.responses.create(prompt)"])) ∧
      (∀ s, fi m p = Except.error (PyExc.other s) →
        (generate_text_with_model
          { generate_text := none, generate := none,
            responses_create := some (fi, fp), create := none } m p).2 =
          ["genai.responses.create(input)"]) := by
  intro fi fp m p
  refine ⟨fun resp v h1 h2 => ?_, fun s resp v h1 h2 h3 => ?_, fun s h1 => ?_⟩
  · simp [generate_text_with_model, tryCall, tryResponses, h1, h2]
  · simp [generate_text_with_model, tryCall, tryResponses, h1, h2, h3]
  · simp [generate_text_with_model, tryCall, tryResponses, h1]

/-- C7 witness: a `TypeError` on the `input`-named call followed by a
successful `prompt`-named retry. -/
theorem responses_create_retry_iff_typeerror_witness :
    generate_text_with_model
      { generate_text := none, generate := none,
        responses_create := some
          (fun _ _ => Except.error (PyExc.typeError "unexpected keyword"),
           fun _ _ => Except.ok (PyVal.vStr "retried")),
        create := none } "m" "p" =
      (Except.ok (PyVal.vStr "retried"),
       ["genai.responses.create(input)", "genai.responses.create(prompt)"]) :=
  (responses_create_retry_iff_typeerror
    (fun _ _ => Except.error (PyExc.typeError "unexpected keyword"))
    (fun _ _ => Except.ok (PyVal.vStr "retried")) "m" "p").2.1
    "unexpected keyword" (PyVal.vStr "retried") (PyVal.vStr "retried")
    rfl rfl rfl

/-- Stripping a string of only whitespace characters leaves the empty
string. -/
theorem pyStrip_eq_empty_of_all_ws {s : String}
    (h : s.data.all Char.isWhitespace = true) : pyStrip s = "" := by
  unfold pyStrip
  have h1 : s.data.dropWhile Char.isWhitespace = [] :=
    List.dropWhile_eq_nil_iff.mpr (fun x hx => List.all_eq_true.mp h x hx)
  rw [h1]
  rfl

/-- C10: a request whose prompt consists only of whitespace characters is
rejected with status 400 before model selection or generation is
attempted — the prompt is stripped before the emptiness check. -/
theorem generate_route_whitespace_prompt_400 :
    ∀ (s : String) (lr : ListResult) (c : GenaiClient),
      s.data.all Char.isWhitespace = true →
      (generate_route (some s) lr c).status = 400 ∧
      (generate_route (some s) lr c).chooseRan = false ∧
      (generate_route (some s) lr c).genCalls = [] := by
  intro s lr c h
  have hs : pyStrip s = "" := pyStrip_eq_empty_of_all_ws h
  simp [generate_route, hs]

/-- C10 witness: a prompt of three whitespace characters (not missing, not
empty) is rejected without selection or generation. -/
theorem generate_route_whitespace_prompt_400_witness :
    (" \t " ≠ "") ∧
    (generate_route (some " \t ")
        (ListResult.raises "unreached")
        { generate_text := none, generate := none,
          responses_create := none, create := none }).status = 400 ∧
    (generate_route (some " \t ")
        (ListResult.raises "unreached")
        { generate_text := none, generate := none,
          responses_create := none, create := none }).chooseRan = false ∧
    (generate_route (some " \t ")
        (ListResult.raises "unreached")
        { generate_text := none, generate := none,
          responses_create := none, create := none }).genCalls = [] :=
  ⟨by decide,
   generate_route_whitespace_prompt_400 " \t " (ListResult.raises "unreached")
     { generate_text := none, generate := none,
       responses_create := none, create := none } (by decide)⟩

/-- C3: for every request whose stripped prompt is non-empty, the outcome
populates exactly one of `output` and `error`; model selection runs, and
when it fails no generation call is ever performed. -/
theorem generate_route_exactly_one_of_output_error :
    ∀ (pf : Option String) (lr : ListResult) (c : GenaiClient),
      pyStrip (pf.getD "") ≠ "" →
      (((generate_route pf lr c).outcome.output.isSome ∧
        (generate_route pf lr c).outcome.error = none) ∨
       ((generate_route pf lr c).outcome.output = none ∧
        (generate_route pf lr c).outcome.error.isSome)) ∧
      (generate_route pf lr c).chooseRan = true ∧
      (∀ e, choose_model none lr = Except.error e →
        (generate_route pf lr c).genCalls = []) := by
  intro pf lr c h
  cases hcm : choose_model none lr with
  | error e =>
    refine ⟨?_, ?_, ?_⟩ <;> simp [generate_route, if_neg h, hcm]
  | ok mn =>
    cases hg : generate_text_with_model c mn (pyStrip (pf.getD "")) with
    | mk r tr =>
      cases r with
      | ok v =>
        refine ⟨?_, ?_, ?_⟩ <;> simp [generate_route, if_neg h, hcm, hg]
      | error e =>
        refine ⟨?_, ?_, ?_⟩ <;> simp [generate_route, if_neg h, hcm, hg]

/-- C3 witness: a non-empty prompt with a failing upstream listing — the
outcome carries only an error, selection ran, and no generation call was
performed. -/
theorem generate_route_exactly_one_of_output_error_witness :
    (pyStrip ((some "hi").getD "") ≠ "") ∧
    ((((generate_route (some "hi") (ListResult.raises "boom")
          { generate_text := none, generate := none,
            responses_create := none, create := none }).outcome.output.isSome ∧
       (generate_route (some "hi") (ListResult.raises "boom")
          { generate_text := none, generate := none,
            responses_create := none, create := none }).outcome.error = none) ∨
      ((generate_route (some "hi") (ListResult.raises "boom")
          { generate_text := none, generate := none,
            responses_create := none, create := none }).outcome.output = none ∧
       (generate_route (some "hi") (ListResult.raises "boom")
          { generate_text := none, generate := none,
            responses_create := none, create := none }).outcome.error.isSome)) ∧
     (generate_route (some "hi") (ListResult.raises "boom")
        { generate_text := none, generate := none,
          responses_create := none, create := none }).chooseRan = true ∧
     (∀ e, choose_model none (ListResult.raises "boom") = Except.error e →
       (generate_route (some "hi") (ListResult.raises "boom")
          { generate_text := none, generate := none,
            responses_create := none, create := none }).genCalls = [])) :=
  ⟨by decide,
   generate_route_exactly_one_of_output_error (some "hi") (ListResult.raises "boom")
     { generate_text := none, generate := none,
       responses_create := none, create := none } (by decide)⟩

/-- Every attempt record produced by `try_call` carries its strategy
name. -/
theorem try_call_method (name : String) (r : Except PyExc PyVal) :
    (try_call name r).method = name := by
  cases r <;> rfl

/-- Every attempt record produced by `try_call` is either a success with a
populated preview and no error, or a failure with no preview and a
populated error. -/
theorem try_call_shape (name : String) (r : Except PyExc PyVal) :
    ((try_call name r).ok = true ∧ (try_call name r).output_preview.isSome ∧
      (try_call name r).error = none) ∨
    ((try_call name r).ok = false ∧ (try_call name r).output_preview = none ∧
      (try_call name r).error.isSome) := by
  cases r with
  | ok v => left; cases v <;> simp [try_call]
  | error e => right; simp [try_call]

/-- C8 (amended): once model selection has succeeded, the diagnostic mode
always returns (it never raises) the selected model name together with
exactly four attempt records, one per strategy in order, each either a
success with a populated preview or a failure carrying an error; previews
of string outputs are sliced to 500 characters (non-string outputs are
rendered with the string conversion, unsliced). -/
theorem debug_generate_runs_all_strategies :
    (∀ (pf : Option String) (lr : ListResult) (c : GenaiClient) (mn : String),
      choose_model none lr = Except.ok mn →
      ∃ atts, debug_generate pf lr c = DebugResult.success mn atts ∧
        atts.length = 4 ∧
        atts.map AttemptRecord.method =
          ["genai.generate_text", "genai.generate",
           "genai.responses.create", "genai.create"] ∧
        ∀ a ∈ atts,
          ((a.ok = true ∧ a.output_preview.isSome ∧ a.error = none) ∨
           (a.ok = false ∧ a.output_preview = none ∧ a.error.isSome))) ∧
    (∀ (name s : String),
      (try_call name (Except.ok (PyVal.vStr s))).output_preview =
        some (s.take 500)) := by
  constructor
  · intro pf lr c mn hcm
    simp only [debug_generate, hcm]
    refine ⟨_, rfl, rfl, by simp [try_call_method], ?_⟩
    intro a ha
    simp only [List.mem_cons, List.not_mem_nil, or_false] at ha
    rcases ha with rfl | rfl | rfl | rfl <;> exact try_call_shape _ _
  · intro name s
    rfl

/-- C8 witness: a concrete client with no strategy available still yields
four attempt records for the selected model. -/
theorem debug_generate_runs_all_strategies_witness :
    (choose_model none
      (ListResult.ok [{ name := some "m", capabilities := none, strRepr := "m" }]) =
        Except.ok "m") ∧
    (∃ atts, debug_generate (some "ping")
        (ListResult.ok [{ name := some "m", capabilities := none, strRepr := "m" }])
        { generate_text := none, generate := none,
          responses_create := none, create := none } = DebugResult.success "m" atts ∧
      atts.length = 4 ∧
      atts.map AttemptRecord.method =
        ["genai.generate_text", "genai.generate",
         "genai.responses.create", "genai.create"] ∧
      ∀ a ∈ atts,
        ((a.ok = true ∧ a.output_preview.isSome ∧ a.error = none) ∨
         (a.ok = false ∧ a.output_preview = none ∧ a.error.isSome))) :=
  ⟨rfl,
   debug_generate_runs_all_strategies.1 (some "ping")
     (ListResult.ok [{ name := some "m", capabilities := none, strRepr := "m" }])
     { generate_text := none, generate := none,
       responses_create := none, create := none } "m" rfl⟩

/-- A response whose normalization yields a non-string value with a long
string rendering (a list holding one 501-character string). -/
def bigRespC8 : PyVal :=
  PyVal.vDict [] [("candidates",
    PyVal.vList [PyVal.vDict [] [("output",
      PyVal.vList [PyVal.vStr (String.mk (List.replicate 501 'a'))])]])]

/-- A client whose first strategy succeeds with `bigRespC8`. -/
def clientC8 : GenaiClient :=
  { generate_text := some (fun _ _ => Except.ok bigRespC8),
    generate := none, responses_create := none, create := none }

set_option maxRecDepth 40000 in
/-- C8 counterexample: the first attempt record is a success whose output
preview is longer than 500 characters — the 500-character slice is applied
only to string outputs, and this output is not a string. -/
theorem debug_generate_preview_exceeds_500 :
    (((debug_generate none
        (ListResult.ok [{ name := some "m", capabilities := none, strRepr := "m" }])
        clientC8).attemptsOf.headD defaultAttempt).ok = true) ∧
    500 < (((debug_generate none
        (ListResult.ok [{ name := some "m", capabilities := none, strRepr := "m" }])
        clientC8).attemptsOf.headD defaultAttempt).output_preview.getD "").length := by
  exact ⟨rfl, by decide⟩
